import Mathlib

/-
Shallow embedding of the core pipeline of the Orik presentation co-host:
tag extraction from speaker notes, the response-selection policy, the
slide-polling state machine, MCP connector startup, the audio playback
queue, and the synthesis cache.  Numeric probabilities/confidences are
modelled as rationals, timestamps as natural-number ticks, injected
randomness as explicit rational draws in [0, 1), and audio byte payloads
as lists of naturals.
-/

/-- Whitespace characters recognised by Python's `str.strip()` and by the
regex class `\s` (ASCII range): space, tab, newline, carriage return,
vertical tab, form feed. -/
def isPySpace (c : Char) : Bool :=
  c = ' ' || c = '\t' || c = '\n' || c = '\r' || c = '\x0b' || c = '\x0c'

/-- Python `str.strip()` on a list of characters: remove leading and
trailing whitespace. -/
def pyStripL (l : List Char) : List Char :=
  ((l.dropWhile isPySpace).reverse.dropWhile isPySpace).reverse

/-- Python `str.strip()` on a string. -/
def pyStrip (s : String) : String :=
  String.mk (pyStripL s.toList)

/-- The fixed annotation marker `[Orik]` in lower case; the regex
`\[Orik\]` is matched with `re.IGNORECASE`, i.e. by comparing the
lower-cased input against this token. -/
def orikMarkerL : List Char := "[orik]".toList

/-- Whether the case-insensitive marker `[Orik]` occurs at the head of the
character list (the regex literal `\[Orik\]` under `re.IGNORECASE`). -/
def isMarkerAt (l : List Char) : Bool :=
  (l.take 6).map Char.toLower == orikMarkerL

/-- The captures of `re.findall(r'\[Orik\]\s*(.*?)(?=\[|$)', notes,
re.IGNORECASE | re.DOTALL)`: scan for the marker; after a marker, skip
the greedy `\s*`, then the lazy capture group runs (newlines included,
by DOTALL) up to but not including the next `[` or the end of the
string, where scanning resumes.  (`$` can also match just before a
trailing newline; the difference is erased by the `strip()` applied to
every capture in `extract_from_notes`.) -/
def extractMatchesFuel : Nat → List Char → List (List Char)
  | 0, _ => []
  | _, [] => []
  | fuel + 1, c :: rest =>
    if isMarkerAt (c :: rest) then
      let afterWs := ((c :: rest).drop 6).dropWhile isPySpace
      let cap := afterWs.takeWhile (fun d => d != '[')
      let remaining := afterWs.dropWhile (fun d => d != '[')
      cap :: extractMatchesFuel fuel remaining
    else
      extractMatchesFuel fuel rest

/-- The regex captures of the notes (see `extractMatchesFuel`): the input
length is always sufficient fuel, since every scanning step consumes at
least one character. -/
def extractMatches (l : List Char) : List (List Char) :=
  extractMatchesFuel l.length l

/-- `OrikContent.extract_from_notes`, capture post-processing: each regex
capture is stripped and empty results are discarded. -/
def extractOrikSpans (notes : String) : List String :=
  ((extractMatches notes.toList).map (fun m => String.mk (pyStripL m))).filter
    (fun s => s != "")

/-- `SlideData` (src/models/slide_data.py); the `datetime` timestamp is a
natural-number tick.  (`__post_init__` additionally rejects an empty
`presentation_path`; no claim depends on that validation.) -/
structure SlideData where
  slide_index : Nat
  slide_title : String
  speaker_notes : String
  presentation_path : String
  timestamp : Nat
  slide_content : Option String := some ""
deriving DecidableEq

/-- `OrikContent` (src/models/orik_content.py). -/
structure OrikContent where
  raw_text : String
  extracted_tags : List String
  context : Option String
  slide_reference : SlideData
deriving DecidableEq

/-- `OrikContent.extract_from_notes`: regex extraction over the speaker
notes; the slide title is used as context when non-empty (Python
truthiness of the title string). -/
def OrikContent.extract_from_notes (slide : SlideData) : OrikContent :=
  { raw_text := slide.speaker_notes
    extracted_tags := extractOrikSpans slide.speaker_notes
    context := if slide.slide_title = "" then none else some slide.slide_title
    slide_reference := slide }

/-- `OrikContent.has_orik_tags`. -/
def OrikContent.has_orik_tags (c : OrikContent) : Bool :=
  c.extracted_tags.length > 0

/-- `OrikContent.get_combined_content`: `" ".join(self.extracted_tags)`. -/
def OrikContent.get_combined_content (c : OrikContent) : String :=
  String.intercalate " " c.extracted_tags

/-- `PlaybackStatus` (src/models/enums.py). -/
inductive PlaybackStatus where
  | idle
  | playing
  | paused
  | error
deriving DecidableEq

/-- `SystemStatus` (src/models/system_status.py); `last_activity` is a
natural-number tick. -/
structure SystemStatus where
  is_monitoring : Bool
  presentation_connected : Bool
  tts_available : Bool
  audio_ready : Bool
  last_activity : Nat
  error_state : Option String := none
deriving DecidableEq

/-- `SystemStatus.is_fully_operational`: all four component booleans are
true AND the error state is none. -/
def SystemStatus.is_fully_operational (s : SystemStatus) : Bool :=
  s.is_monitoring && s.presentation_connected && s.tts_available &&
    s.audio_ready && s.error_state.isNone

/-- `SystemStatus.update_activity`; `datetime.now()` is the `now` tick. -/
def SystemStatus.update_activity (s : SystemStatus) (now : Nat) : SystemStatus :=
  { s with last_activity := now }

/-- `SystemStatus.set_error`. -/
def SystemStatus.set_error (s : SystemStatus) (msg : String) (now : Nat) :
    SystemStatus :=
  { s with error_state := some msg, last_activity := now }

/-- `SystemStatus.clear_error`. -/
def SystemStatus.clear_error (s : SystemStatus) (now : Nat) : SystemStatus :=
  { s with error_state := none, last_activity := now }

/-- `OrikAgentController._update_system_status`: the four booleans are
recomputed from the live component states (`is_monitoring` flag, the
presentation monitor's presence probe, the TTS client's connectedness,
and the audio service status not being `error`), the activity timestamp
is refreshed, and `clear_error` is invoked when `is_fully_operational`
holds. -/
def updateSystemStatus (st : SystemStatus) (isMonitoring presentationActive
    ttsConnected : Bool) (audioStatus : PlaybackStatus) (now : Nat) :
    SystemStatus :=
  let st1 : SystemStatus :=
    { st with
      is_monitoring := isMonitoring
      presentation_connected := presentationActive
      tts_available := ttsConnected
      audio_ready := audioStatus != PlaybackStatus.error }
  let st2 := st1.update_activity now
  if st2.is_fully_operational then st2.clear_error now else st2

/-- `SlideInfo` (src/models/slide_data.py). -/
structure SlideInfo where
  slide_index : Nat
  slide_title : String
  total_slides : Nat
  is_slideshow_mode : Bool := false
deriving DecidableEq

/-- `SlideEvent` (src/models/slide_data.py), as an inductive over the three
`event_type` strings; the event timestamp is not modelled (no claim
mentions it). -/
inductive SlideEvent where
  | slide_changed (data : SlideData)
  | presentation_started
  | presentation_ended
deriving DecidableEq

/-- `PresentationMonitor._check_slide_changes`, one poll tick.  `fetch`
abstracts `_create_slide_data` (the collaborator calls fetching speaker
notes and presentation path for an observed slide); `tracked` is
`self.current_slide_info`; `observed` is the result of
`get_current_slide_info()` (`none` both for "no info" and for a probe
exception, which the method swallows).  Returns the new tracked slide
and the emitted events. -/
def checkSlideChanges (fetch : SlideInfo → SlideData)
    (tracked : Option SlideInfo) (observed : Option SlideInfo) :
    Option SlideInfo × List SlideEvent :=
  match observed with
  | none => (tracked, [])
  | some info =>
    match tracked with
    | none => (some info, [SlideEvent.slide_changed (fetch info)])
    | some t =>
      if info.slide_index ≠ t.slide_index then
        (some info, [SlideEvent.slide_changed (fetch info)])
      else
        (some t, [])

/-- A run of consecutive poll ticks of `_check_slide_changes` over a list
of observations, threading the tracked slide and collecting emitted
events in order. -/
def runPollTicks (fetch : SlideInfo → SlideData) :
    Option SlideInfo → List (Option SlideInfo) →
    Option SlideInfo × List SlideEvent
  | tracked, [] => (tracked, [])
  | tracked, ob :: obs =>
    let r1 := checkSlideChanges fetch tracked ob
    let r2 := runPollTicks fetch r1.1 obs
    (r2.1, r1.2 ++ r2.2)

/-- The observations at which the claim predicts a `slide_changed`
emission: ticks where the observed slide index differs from the last
tracked index, or no index is tracked yet.  Stated only in terms of the
tracked index, as the claim is. -/
def changedIndexTransitions : Option Nat → List (Option SlideInfo) →
    List SlideInfo
  | _, [] => []
  | last, none :: obs => changedIndexTransitions last obs
  | none, some info :: obs =>
    info :: changedIndexTransitions (some info.slide_index) obs
  | some k, some info :: obs =>
    if info.slide_index ≠ k then
      info :: changedIndexTransitions (some info.slide_index) obs
    else
      changedIndexTransitions (some k) obs

/-- `ResponseType` (src/models/enums.py). -/
inductive ResponseType where
  | tagged
  | random_dig
  | contextual
deriving DecidableEq

/-- `OrikResponse`; the `generation_time` datetime is a natural-number
tick, `source_content` is the string the code always passes. -/
structure OrikResponse where
  response_text : String
  confidence : ℚ
  response_type : ResponseType
  generation_time : Nat
  source_content : String
deriving DecidableEq

deriving instance DecidableEq for Except

/-- Modelled from the spec: `src/models/orik_response.py` is absent from
the sources (only its importers and tests are present).  The spec's
ResponseRecord invariant — text non-empty, confidence within [0, 1] —
and the test-asserted validation messages give the constructor: it
raises `ValueError("response_text cannot be empty")` for empty text and
`ValueError("confidence must be between 0.0 and 1.0")` for an
out-of-range confidence. -/
def mkOrikResponse (text : String) (confidence : ℚ) (ty : ResponseType)
    (now : Nat) (src : String) : Except String OrikResponse :=
  if text = "" then Except.error "response_text cannot be empty"
  else if confidence < 0 ∨ 1 < confidence then
    Except.error "confidence must be between 0.0 and 1.0"
  else Except.ok ⟨text, confidence, ty, now, src⟩

/-- `OrikPersonality` (src/models/personality.py); the three rates are
rationals (`__post_init__` also validates that each lies in [0, 1]). -/
structure OrikPersonality where
  base_prompt : String
  sarcasm_level : ℚ := 4/5
  interruption_frequency : ℚ := 3/10
  aaron_dig_probability : ℚ := 2/5
  response_templates : List String
  forbidden_topics : List String
deriving DecidableEq

/-- `OrikPersonality.should_interrupt` with the `random.random()` draw
made explicit: the draw (in [0, 1)) is below the interruption
frequency. -/
def OrikPersonality.should_interrupt (p : OrikPersonality) (draw : ℚ) :
    Bool :=
  draw < p.interruption_frequency

/-- `OrikPersonality.should_dig_at_aaron` with the `random.random()` draw
made explicit. -/
def OrikPersonality.should_dig_at_aaron (p : OrikPersonality) (draw : ℚ) :
    Bool :=
  draw < p.aaron_dig_probability

/-- `OrikPersonality._get_default_templates`. -/
def defaultResponseTemplates : List String :=
  [ "Oh {content}? How... groundbreaking, Aaron."
  , "Sure, let's all pretend {content} makes perfect sense."
  , "Wow Aaron, {content}. Revolutionary stuff from 2012."
  , "Another brilliant insight: {content}. Truly inspired."
  , "Oh please, continue with {content}. We're all fascinated."
  , "{content}? That's... that's actually not terrible. Wait, what am I saying?"
  , "Let me guess, {content} is going to change everything, right Aaron?"
  , "Ah yes, {content}. Because that's exactly what we needed to hear." ]

/-- `OrikPersonality._get_default_forbidden_topics`. -/
def defaultForbiddenTopics : List String :=
  [ "personal information", "private data", "confidential", "password"
  , "secret", "inappropriate content" ]

/-- `OrikPersonality.create_default` (the long default base prompt is kept
verbatim in spirit but abbreviated to its first line; no claim depends
on the prompt text). -/
def OrikPersonality.create_default : OrikPersonality :=
  { base_prompt := "You are Orik, a sarcastic AI presentation co-host."
    response_templates := defaultResponseTemplates
    forbidden_topics := defaultForbiddenTopics }

/-- One `{content}` substitution pass of Python's
`template.format(content=...)`: every occurrence of the placeholder
`{content}` in the template is replaced by the content string.  This
models `str.format` exactly for templates whose brace constructs are
all literal `{content}` placeholders (`goodTemplate`); every template
shipped in the source is of that form. -/
def replaceContentFuel : Nat → List Char → List Char → List Char
  | 0, l, _ => l
  | _, [], _ => []
  | fuel + 1, c :: rest, repl =>
    if (c :: rest).take 9 = "{content}".toList then
      repl ++ replaceContentFuel fuel ((c :: rest).drop 9) repl
    else
      c :: replaceContentFuel fuel rest repl

/-- `{content}` substitution (see `replaceContentFuel`): the template
length is always sufficient fuel, since every step consumes at least
one template character. -/
def replaceContentL (l repl : List Char) : List Char :=
  replaceContentFuel l.length l repl

/-- `template.format(content=content)` on strings (see `replaceContentL`). -/
def formatContent (template content : String) : String :=
  String.mk (replaceContentL template.toList content.toList)

/-- The domain on which `formatContent` is a faithful model of Python
`str.format`: after removing the `{content}` placeholders no brace
remains (so the template has no other replacement fields, which would
raise `KeyError`/`ValueError` in `str.format`). -/
def goodTemplate (template : String) : Bool :=
  (replaceContentL template.toList []).all (fun c => c != '{' && c != '}')

/-- `ResponseGenerator._create_silent_response`: the sentinel silent
response. -/
def createSilentResponse (now : Nat) : OrikResponse :=
  ⟨"[SILENT]", 0, ResponseType.contextual, now, ""⟩

/-- The response text built by `ResponseGenerator._generate_tagged_response`:
the combined content substituted into the first personality template,
or the fixed default template when the template list is empty (Python
truthiness of the list). -/
def taggedText (p : OrikPersonality) (content : OrikContent) : String :=
  match p.response_templates with
  | [] => "Oh, " ++ content.get_combined_content ++ "? How... enlightening, Aaron."
  | t :: _ => formatContent t content.get_combined_content

/-- `ResponseGenerator._generate_tagged_response`: kind tagged, confidence
0.8, source the combined content; constructing the `OrikResponse` can
raise (empty text). -/
def generateTaggedResponse (p : OrikPersonality) (content : OrikContent)
    (now : Nat) : Except String OrikResponse :=
  mkOrikResponse (taggedText p content) (4/5) ResponseType.tagged now
    content.get_combined_content

/-- `ResponseGenerator._generate_contextual_or_dig_response` with the two
`random.random()` draws made explicit: if the first draw fails the
interruption check, the silent response; otherwise a hardcoded random
dig (second draw below the dig probability) or a hardcoded contextual
filler, both with confidence 0.6 and the slide context (or `""`) as
source. -/
def generateContextualOrDigResponse (p : OrikPersonality)
    (content : OrikContent) (r1 r2 : ℚ) (now : Nat) :
    Except String OrikResponse :=
  if ¬ (p.should_interrupt r1) then Except.ok (createSilentResponse now)
  else if p.should_dig_at_aaron r2 then
    mkOrikResponse "I'm sure Aaron knows exactly what he's talking about... right?"
      (3/5) ResponseType.random_dig now (content.context.getD "")
  else
    mkOrikResponse "Hmm, interesting approach, Aaron." (3/5)
      ResponseType.contextual now (content.context.getD "")

/-- `ResponseGenerator.generate_response`: tagged path when the content
has Orik tags, otherwise the contextual/dig path; a `ValueError` whose
message is "response_text cannot be empty" is converted to the silent
response, any other `ValueError` is re-raised (the broad
`except Exception` fallback is unreachable in this embedding, whose
only exceptions are the `OrikResponse` validation errors). -/
def generateResponse (p : OrikPersonality) (content : OrikContent)
    (r1 r2 : ℚ) (now : Nat) : Except String OrikResponse :=
  let attempt :=
    if content.has_orik_tags then generateTaggedResponse p content now
    else generateContextualOrDigResponse p content r1 r2 now
  match attempt with
  | Except.ok r => Except.ok r
  | Except.error e =>
    if e = "response_text cannot be empty" then
      Except.ok (createSilentResponse now)
    else Except.error e

/-- Modelled from the spec: §4.2 step 2 says a RandomDig response's text
is drawn "from an external dig-line source"; this is the claimed text
of the dig response when the external source yields `digLine`. -/
def specDigText (digLine : String) : String := digLine

/-- `OrikAgentController._connect_single_client`: up to 3 connection
attempts (with 1 s and 2 s back-off sleeps between them, not modelled
as time); an attempt that raises is logged and counts as failed, so
the outcome is success exactly when one of the first three attempts
succeeds.  `attempts i` is the outcome of attempt number `i`. -/
def connectSingleClient (attempts : Nat → Bool) : Bool :=
  attempts 0 || attempts 1 || attempts 2

/-- `OrikAgentController._connect_mcp_clients`: the per-client connection
tasks are fanned out concurrently and joined (`asyncio.gather`); the
joined results are counted and a `RuntimeError` is raised exactly when
no client connected.  Returns the connected count on success. -/
def connectMCPClients (clients : List (Nat → Bool)) : Except String Nat :=
  let connectedCount := (clients.filter (fun c => connectSingleClient c)).length
  if connectedCount = 0 then
    Except.error "Failed to connect any MCP clients"
  else
    Except.ok connectedCount

/-- One queued audio clip from the playback queue's point of view: an
identifier for the underlying `AudioResult` and whether the backend
playback of it succeeds (`_play_with_pygame`/`_play_with_pyaudio` and
`_wait_for_completion` raising models `ok := false`). -/
structure QueuedClip where
  id : Nat
  ok : Bool
deriving DecidableEq

/-- The observable callback invocations of `AudioPlaybackService`
(`on_playback_started`, `on_playback_finished`, `on_playback_error`)
identified by the clip they concern. -/
inductive AudioCallback where
  | playback_started (id : Nat)
  | playback_finished (id : Nat)
  | playback_error (id : Nat)
deriving DecidableEq

/-- `AudioPlaybackService._play_audio_sync`: the status is set to
`playing` and the started callback fires; on successful completion the
status is set to `idle` and the finished callback fires; when playback
raises, the status is set to `error` and the error callback fires (the
previous status is overwritten unconditionally, so it is not an
argument).  Returns the status after the clip and the callbacks fired,
in order. -/
def playAudioSync (clip : QueuedClip) : PlaybackStatus × List AudioCallback :=
  if clip.ok then
    (PlaybackStatus.idle,
      [AudioCallback.playback_started clip.id,
       AudioCallback.playback_finished clip.id])
  else
    (PlaybackStatus.error,
      [AudioCallback.playback_started clip.id,
       AudioCallback.playback_error clip.id])

/-- `AudioPlaybackService._process_audio_queue`: the single consumer
drains the FIFO queue one clip at a time, calling `_play_audio_sync`
on each; an exception inside `_play_audio_sync` is already caught
there, so the loop always proceeds to the next queued clip.  Given the
queued clips and the status on entry, returns the final status and all
callbacks fired, in order. -/
def processAudioQueue : List QueuedClip → PlaybackStatus →
    PlaybackStatus × List AudioCallback
  | [], status => (status, [])
  | clip :: rest, _ =>
    let r1 := playAudioSync clip
    let r2 := processAudioQueue rest r1.1
    (r2.1, r1.2 ++ r2.2)

/-- Whether a callback is a started callback (used to count how many
queued clips were actually consumed). -/
def AudioCallback.isStarted : AudioCallback → Bool
  | AudioCallback.playback_started _ => true
  | _ => false

/-- `VoiceConfig` (src/models/audio_models.py); `speed` and `volume` are
rationals (`__post_init__` also validates their ranges and the engine
name). -/
structure VoiceConfig where
  voice_id : String := "Matthew"
  speed : ℚ := 11/10
  pitch : String := "-10%"
  volume : ℚ := 1
  engine : String := "standard"
deriving DecidableEq

/-- `AudioFormat` (src/models/enums.py). -/
inductive AudioFormat where
  | mp3
  | wav
  | ogg
deriving DecidableEq

/-- `AudioResult` (src/models/audio_models.py); the byte payload is a
list of naturals (`__post_init__` also rejects an empty payload, which
the synthesis embedding checks where the constructor runs). -/
structure AudioResult where
  audio_data : List Nat
  format : AudioFormat
  duration_ms : Nat
  voice_config : VoiceConfig
  text_source : Option String := none
deriving DecidableEq

/-- `AudioCache._get_cache_key`: the md5 digest of
`f"{text}|{voice_id}|{speed}|{pitch}|{engine}"`.  The deterministic
digest of the joined string is modelled by the tuple of its components
— equal components give equal keys, which is the property the cache
relies on; `volume` is not part of the key. -/
structure CacheKey where
  text : String
  voice_id : String
  speed : ℚ
  pitch : String
  engine : String
deriving DecidableEq

/-- `AudioCache._get_cache_key` over the request parameters. -/
def getCacheKey (text : String) (cfg : VoiceConfig) : CacheKey :=
  ⟨text, cfg.voice_id, cfg.speed, cfg.pitch, cfg.engine⟩

/-- One `cache_metadata.json` entry (the `cached_at` timestamp is not
modelled; no claim mentions it). -/
structure CacheEntry where
  text : String
  voice_id : String
  duration_ms : Nat
  file_size : Nat
deriving DecidableEq

/-- The on-disk state owned by `AudioCache`: the metadata index and the
content-addressed audio files, both keyed by the fingerprint. -/
structure AudioCacheState where
  metadata : List (CacheKey × CacheEntry)
  files : List (CacheKey × List Nat)
deriving DecidableEq

/-- A fresh cache directory. -/
def emptyAudioCache : AudioCacheState := ⟨[], []⟩

/-- Association-list lookup keyed by `CacheKey` (a Python dict /
file-system lookup). -/
def assocGet {β : Type} (k : CacheKey) : List (CacheKey × β) → Option β
  | [] => none
  | (k', v) :: rest => if k' = k then some v else assocGet k rest

/-- Association-list removal (Python `del d[k]` / file deletion). -/
def assocRemove {β : Type} (k : CacheKey) (l : List (CacheKey × β)) :
    List (CacheKey × β) :=
  l.filter (fun p => decide (p.1 ≠ k))

/-- Association-list overwrite (Python `d[k] = v` / file write). -/
def assocSet {β : Type} (k : CacheKey) (v : β) (l : List (CacheKey × β)) :
    List (CacheKey × β) :=
  (k, v) :: assocRemove k l

/-- `AudioCache.get_cached_audio`: on a metadata hit with the audio file
present, rebuild an `AudioResult` from the cached bytes, the recorded
duration, and the *requested* voice config and text; a metadata hit
with the file missing deletes the stale metadata entry and misses; an
empty cached payload makes the `AudioResult` constructor raise, which
the surrounding `except` turns into a miss (state unchanged, since the
exception pre-empts any deletion). -/
def getCachedAudio (st : AudioCacheState) (text : String) (cfg : VoiceConfig) :
    Option AudioResult × AudioCacheState :=
  let key := getCacheKey text cfg
  match assocGet key st.metadata with
  | none => (none, st)
  | some info =>
    match assocGet key st.files with
    | none => (none, { st with metadata := assocRemove key st.metadata })
    | some data =>
      if data = [] then (none, st)
      else
        (some ⟨data, AudioFormat.mp3, info.duration_ms, cfg, some text⟩, st)

/-- Python `text[:100]`. -/
def takePrefix100 (text : String) : String :=
  String.mk (text.toList.take 100)

/-- `AudioCache.cache_audio`: write the audio file and the metadata entry
(truncated text, voice id, duration, payload size) under the
fingerprint. -/
def cacheAudio (st : AudioCacheState) (text : String) (cfg : VoiceConfig)
    (res : AudioResult) : AudioCacheState :=
  let key := getCacheKey text cfg
  { metadata := assocSet key
      ⟨takePrefix100 text, cfg.voice_id, res.duration_ms, res.audio_data.length⟩
      st.metadata
    files := assocSet key res.audio_data st.files }

/-- The outcome dictionary of `TextToSpeechTool.synthesize_speech`,
reduced to the fields the claims mention. -/
inductive SynthOutcome where
  | success (result : AudioResult) (cached : Bool)
  | failure (error : String)
deriving DecidableEq

/-- `TextToSpeechTool.synthesize_speech` with an explicit voice config.
`polly` abstracts `PollyTTSClient.synthesize_speech` (with the
deterministic SSML processing composed into it) as a function from the
request to the audio bytes.  Empty or whitespace-only text raises
before anything else; with caching enabled the cache is consulted
first and a hit returns the cached clip without calling Polly; on a
miss Polly is called once (the returned `Nat` counts collaborator
calls), an empty payload makes the `AudioResult` constructor raise
(caught as a failure, nothing cached), and otherwise the result is
cached and returned.  The duration is the code's `len(text) * 100`
estimate. -/
def synthesizeSpeech (polly : String → VoiceConfig → List Nat)
    (st : AudioCacheState) (text : String) (cfg : VoiceConfig)
    (useCache : Bool) : SynthOutcome × AudioCacheState × Nat :=
  if pyStrip text = "" then
    (SynthOutcome.failure "Text cannot be empty", st, 0)
  else
    let checkRes := if useCache then getCachedAudio st text cfg else (none, st)
    match checkRes with
    | (some r, st1) => (SynthOutcome.success r true, st1, 0)
    | (none, st1) =>
      let data := polly text cfg
      if data = [] then
        (SynthOutcome.failure "audio_data cannot be empty", st1, 1)
      else
        let res : AudioResult :=
          ⟨data, AudioFormat.mp3, text.length * 100, cfg, some text⟩
        let st2 := if useCache then cacheAudio st1 text cfg res else st1
        (SynthOutcome.success res false, st2, 1)

/-- The claim's span rule, stated for comparison with the code: all
characters after a marker up to (but not including) the next occurrence
of the marker token itself (case-insensitive) or the end of the string.
Prefix of the input before the next marker occurrence. -/
def takeToMarker : List Char → List Char
  | [] => []
  | c :: rest => if isMarkerAt (c :: rest) then [] else c :: takeToMarker rest

/-- Suffix of the input from the next marker occurrence on (empty when no
marker follows). -/
def dropToMarker : List Char → List Char
  | [] => []
  | c :: rest => if isMarkerAt (c :: rest) then c :: rest else dropToMarker rest

/-- The extraction the claim describes, with captures running to the next
marker occurrence instead of the next `[`.  Fuel-recursive (each step
consumes at least the six marker characters, so the input length is
always enough fuel). -/
def extractSpecMatchesFuel : Nat → List Char → List (List Char)
  | 0, _ => []
  | _, [] => []
  | fuel + 1, c :: rest =>
    if isMarkerAt (c :: rest) then
      let after := (c :: rest).drop 6
      takeToMarker after :: extractSpecMatchesFuel fuel (dropToMarker after)
    else
      extractSpecMatchesFuel fuel rest

/-- The claim's extraction on a string, with the same strip-and-discard
post-processing as the code. -/
def extractSpec (notes : String) : List String :=
  ((extractSpecMatchesFuel notes.toList.length notes.toList).map
    (fun m => String.mk (pyStripL m))).filter (fun s => s != "")

/-- Helper: `takeWhile` over an append stops exactly at the first element
that fails the predicate. -/
theorem takeWhile_append_cons_of_all {α : Type} {p : α → Bool} {x : α}
    {b : List α} (hx : p x = false) :
    ∀ a : List α, (∀ y ∈ a, p y = true) → (a ++ x :: b).takeWhile p = a := by
  intro a
  induction a with
  | nil => intro _; simp [List.takeWhile_cons, hx]
  | cons c cs ih =>
    intro h
    have hc : p c = true := h c (by simp)
    simp [List.takeWhile_cons, hc]
    exact ih (fun y hy => h y (by simp [hy]))

/-- Helper: `dropWhile` over an append drops exactly up to the first
element that fails the predicate. -/
theorem dropWhile_append_cons_of_all {α : Type} {p : α → Bool} {x : α}
    {b : List α} (hx : p x = false) :
    ∀ a : List α, (∀ y ∈ a, p y = true) →
      (a ++ x :: b).dropWhile p = x :: b := by
  intro a
  induction a with
  | nil => intro _; simp [List.dropWhile_cons, hx]
  | cons c cs ih =>
    intro h
    have hc : p c = true := h c (by simp)
    simp [List.dropWhile_cons, hc]
    exact ih (fun y hy => h y (by simp [hy]))

/-- Helper: `dropWhile` never crosses an element that fails the
predicate. -/
theorem dropWhile_append_cons_stop {α : Type} {p : α → Bool} {x : α}
    {b : List α} (hx : p x = false) :
    ∀ a : List α, (a ++ x :: b).dropWhile p = a.dropWhile p ++ x :: b := by
  intro a
  induction a with
  | nil => simp [List.dropWhile_cons, hx]
  | cons c cs ih => cases hc : p c <;> simp [List.dropWhile_cons, hc, ih]

/-- Helper: membership survives `dropWhile`. -/
theorem mem_of_mem_dropWhile {α : Type} {p : α → Bool} {x : α}
    {l : List α} (hx : x ∈ l.dropWhile p) : x ∈ l :=
  (List.dropWhile_suffix p).sublist.subset hx

/-- Helper: stripping after dropping leading whitespace is plain
stripping. -/
theorem pyStripL_dropWhile (l : List Char) :
    pyStripL (l.dropWhile isPySpace) = pyStripL l := by
  simp [pyStripL, List.dropWhile_idempotent]

/-- C1: the spec says any previously set error string is cleared whenever
the four component booleans are simultaneously true, but
`is_fully_operational` itself demands `error_state is None`, so
`_update_system_status` can only call `clear_error` when there is no
error to clear: with all four booleans true and a pending error the
error survives the recomputation (first conjunct, the concrete failing
input), and in general the recomputation never changes the error state
at all (second conjunct). -/
theorem updateSystemStatus_never_clears_pending_error :
    (updateSystemStatus
        ⟨false, false, false, false, 0, some "Audio playback error: boom"⟩
        true true true PlaybackStatus.idle 1).error_state
      = some "Audio playback error: boom"
    ∧ ∀ (st : SystemStatus) (m p t : Bool) (a : PlaybackStatus) (now : Nat),
        (updateSystemStatus st m p t a now).error_state = st.error_state := by
  constructor
  · rfl
  · intro st m p t a now
    unfold updateSystemStatus
    dsimp only
    split
    · next h =>
      have hz : st.error_state = none := by
        simp [SystemStatus.is_fully_operational, SystemStatus.update_activity,
          Option.isNone_iff_eq_none] at h
        tauto
      simp [SystemStatus.clear_error, SystemStatus.update_activity, hz]
    · simp [SystemStatus.update_activity]

/-- C2: over any sequence of poll ticks, the `slide_changed` events
emitted by `_check_slide_changes` are exactly one per tick at which the
observed slide index differs from the last tracked index (or no index
is tracked yet), each carrying the freshly fetched snapshot of the
newly observed slide, and zero on ticks where the observed index equals
the tracked index. -/
theorem runPollTicks_slide_changed_events (fetch : SlideInfo → SlideData)
    (tracked : Option SlideInfo) (obs : List (Option SlideInfo)) :
    (runPollTicks fetch tracked obs).2 =
      (changedIndexTransitions (tracked.map SlideInfo.slide_index) obs).map
        (fun i => SlideEvent.slide_changed (fetch i)) := by
  induction obs generalizing tracked with
  | nil => simp [runPollTicks, changedIndexTransitions]
  | cons ob obs ih =>
    cases ob with
    | none =>
      cases tracked <;>
        simp [runPollTicks, checkSlideChanges, changedIndexTransitions, ih]
    | some info =>
      cases tracked with
      | none =>
        simp [runPollTicks, checkSlideChanges, changedIndexTransitions, ih]
      | some t =>
        by_cases h : info.slide_index = t.slide_index
        · simp [runPollTicks, checkSlideChanges, changedIndexTransitions, h, ih]
        · simp [runPollTicks, checkSlideChanges, changedIndexTransitions, h, ih]

/-- Helper: the capture scan does not depend on the fuel once the fuel
covers the input length. -/
theorem extractMatchesFuel_eq (f1 : Nat) :
    ∀ (f2 : Nat) (l : List Char), l.length ≤ f1 → l.length ≤ f2 →
      extractMatchesFuel f1 l = extractMatchesFuel f2 l := by
  induction f1 with
  | zero =>
    intro f2 l h1 _
    have hl : l = [] := List.length_eq_zero.mp (Nat.le_zero.mp h1)
    subst hl
    cases f2 <;> rfl
  | succ f1 ih =>
    intro f2 l h1 h2
    cases l with
    | nil => cases f2 <;> rfl
    | cons c rest =>
      cases f2 with
      | zero => simp at h2
      | succ f2 =>
        simp only [extractMatchesFuel]
        cases hm : isMarkerAt (c :: rest) with
        | false =>
          simp only [Bool.false_eq_true, if_false]
          exact ih f2 rest (by simp at h1; omega) (by simp at h2; omega)
        | true =>
          simp only [if_true]
          congr 1
          have hle : ((((c :: rest).drop 6).dropWhile isPySpace).dropWhile
              (fun d => d != '[')).length ≤ rest.length + 1 - 6 := by
            have ha : (((c :: rest).drop 6).dropWhile isPySpace).length ≤
                ((c :: rest).drop 6).length := (List.dropWhile_suffix _).length_le
            have hb : ((((c :: rest).drop 6).dropWhile isPySpace).dropWhile
                (fun d => d != '[')).length ≤
                (((c :: rest).drop 6).dropWhile isPySpace).length :=
              (List.dropWhile_suffix _).length_le
            have hc : ((c :: rest).drop 6).length = rest.length + 1 - 6 := by
              simp [List.length_drop]
            omega
          exact ih f2 _ (by simp at h1; omega) (by simp at h2; omega)

/-- Helper: a case variant of the marker has six characters. -/
theorem marker_variant_length {m : List Char}
    (h : m.map Char.toLower = orikMarkerL) : m.length = 6 := by
  have h2 := congrArg List.length h
  simp only [List.length_map] at h2
  rw [h2]; decide

/-- Helper: the case-insensitive marker test succeeds on any case variant
of the marker followed by anything. -/
theorem isMarkerAt_append {m : List Char} (tail : List Char)
    (h : m.map Char.toLower = orikMarkerL) :
    isMarkerAt (m ++ tail) = true := by
  have hlen := marker_variant_length h
  unfold isMarkerAt
  rw [show (6 : Nat) = m.length from hlen.symm, List.take_left, h]
  simp

/-- Helper: one marker step of the capture scan: a case variant of the
marker at the head captures the following text (past the greedy `\s*`)
up to the next `[`, and scanning resumes there. -/
theorem extractMatches_marker_step {m : List Char} (tail : List Char)
    (h : m.map Char.toLower = orikMarkerL) :
    extractMatches (m ++ tail) =
      (tail.dropWhile isPySpace).takeWhile (fun d => d != '[') ::
        extractMatches
          ((tail.dropWhile isPySpace).dropWhile (fun d => d != '[')) := by
  have hlen := marker_variant_length h
  cases m with
  | nil => simp at hlen
  | cons c m' =>
    have hdrop : ((c :: m') ++ tail).drop 6 = tail := by
      rw [show (6 : Nat) = (c :: m').length from hlen.symm, List.drop_left]
    show extractMatchesFuel ((c :: m') ++ tail).length ((c :: m') ++ tail) = _
    have hcons : (c :: m') ++ tail = c :: (m' ++ tail) := by simp
    have hlen2 : ((c :: m') ++ tail).length = (m' ++ tail).length + 1 := by
      simp
    rw [hcons] at hdrop ⊢
    rw [show (c :: (m' ++ tail)).length = (m' ++ tail).length + 1 by simp]
    simp only [extractMatchesFuel]
    rw [if_pos (by have := isMarkerAt_append tail h; rwa [hcons] at this)]
    rw [hdrop]
    congr 1
    show extractMatchesFuel _ _ = extractMatchesFuel _ _
    apply extractMatchesFuel_eq
    · have ha : (tail.dropWhile isPySpace).length ≤ tail.length :=
        (List.dropWhile_suffix _).length_le
      have hb : ((tail.dropWhile isPySpace).dropWhile
          (fun d => d != '[')).length ≤ (tail.dropWhile isPySpace).length :=
        (List.dropWhile_suffix _).length_le
      simp only [List.length_append] at *
      omega
    · exact Nat.le_refl _

/-- C3 (counterexample): on notes with a non-marker bracketed token after
the marker, the code's extraction cuts the span at the `[` of
`"[note]"`, while the claim's rule (captures running to the next
occurrence of the marker token or the end of the string) would keep it
inside the span: the two disagree at this input. -/
theorem extractOrikSpans_stops_at_any_bracket :
    extractOrikSpans "[Orik] hello [note] world" = ["hello"]
    ∧ extractSpec "[Orik] hello [note] world" = ["hello [note] world"]
    ∧ extractOrikSpans "[Orik] hello [note] world"
        ≠ extractSpec "[Orik] hello [note] world" := by
  decide

/-- C3 (amended): tag extraction matches the marker token
case-insensitively, and each span consists of the characters after a
marker (past the whitespace eaten by the greedy `\s*`, which the final
trim erases anyway) up to the next `[` character — in particular up to
the next marker — or the end of the string, across line breaks;
trimmed, with empty results discarded.  First conjunct: a single
marker followed by bracket-free text captures everything to the end of
the string.  Second conjunct: with a second marker variant following,
each capture runs up to the `[` that opens the next marker. -/
theorem extractOrikSpans_amended (m1 t2 r1 r2 : List Char)
    (h1 : m1.map Char.toLower = orikMarkerL)
    (h2 : ('[' :: t2).map Char.toLower = orikMarkerL)
    (hr1 : '[' ∉ r1) (hr2 : '[' ∉ r2) :
    extractOrikSpans (String.mk (m1 ++ r1)) =
      ([String.mk (pyStripL r1)].filter (fun s => s != ""))
    ∧ extractOrikSpans (String.mk (m1 ++ (r1 ++ ('[' :: (t2 ++ r2))))) =
      ([String.mk (pyStripL r1), String.mk (pyStripL r2)].filter
        (fun s => s != "")) := by
  have hall1 : ∀ y ∈ r1.dropWhile isPySpace, (y != '[') = true := by
    intro y hy
    have hmem : y ∈ r1 := mem_of_mem_dropWhile hy
    simp only [bne_iff_ne, ne_eq]
    intro e; subst e; exact hr1 hmem
  have hall2 : ∀ y ∈ r2.dropWhile isPySpace, (y != '[') = true := by
    intro y hy
    have hmem : y ∈ r2 := mem_of_mem_dropWhile hy
    simp only [bne_iff_ne, ne_eq]
    intro e; subst e; exact hr2 hmem
  have hbrk : (('[' : Char) != '[') = false := by decide
  have hws : isPySpace '[' = false := by decide
  constructor
  · -- single marker, capture to end of string
    have hstep := extractMatches_marker_step r1 h1
    have hcap : (r1.dropWhile isPySpace).takeWhile (fun d => d != '[') =
        r1.dropWhile isPySpace := List.takeWhile_eq_self_iff.mpr hall1
    have hrem : (r1.dropWhile isPySpace).dropWhile (fun d => d != '[') = [] :=
      List.dropWhile_eq_nil_iff.mpr hall1
    rw [hcap, hrem] at hstep
    show ((extractMatches (m1 ++ r1)).map (fun m => String.mk (pyStripL m))).filter
        (fun s => s != "") = _
    rw [hstep]
    show ([String.mk (pyStripL (r1.dropWhile isPySpace))].filter
        (fun s => s != "")) = _
    rw [pyStripL_dropWhile]
  · -- two markers, each capture stops at the next marker's bracket
    have hstep1 := extractMatches_marker_step (r1 ++ ('[' :: (t2 ++ r2))) h1
    have hdw : (r1 ++ ('[' :: (t2 ++ r2))).dropWhile isPySpace =
        r1.dropWhile isPySpace ++ '[' :: (t2 ++ r2) :=
      dropWhile_append_cons_stop (p := isPySpace) hws r1
    have hcap1 : (r1.dropWhile isPySpace ++ '[' :: (t2 ++ r2)).takeWhile
        (fun d => d != '[') = r1.dropWhile isPySpace :=
      takeWhile_append_cons_of_all (p := fun d => d != '[') hbrk _ hall1
    have hrem1 : (r1.dropWhile isPySpace ++ '[' :: (t2 ++ r2)).dropWhile
        (fun d => d != '[') = '[' :: (t2 ++ r2) :=
      dropWhile_append_cons_of_all (p := fun d => d != '[') hbrk _ hall1
    rw [hdw, hcap1, hrem1] at hstep1
    have hstep2 := extractMatches_marker_step r2 h2
    have hcap2 : (r2.dropWhile isPySpace).takeWhile (fun d => d != '[') =
        r2.dropWhile isPySpace := List.takeWhile_eq_self_iff.mpr hall2
    have hrem2 : (r2.dropWhile isPySpace).dropWhile (fun d => d != '[') = [] :=
      List.dropWhile_eq_nil_iff.mpr hall2
    rw [hcap2, hrem2] at hstep2
    have hcons : ('[' :: t2) ++ r2 = '[' :: (t2 ++ r2) := by simp
    rw [hcons] at hstep2
    show ((extractMatches (m1 ++ (r1 ++ ('[' :: (t2 ++ r2))))).map
        (fun m => String.mk (pyStripL m))).filter (fun s => s != "") = _
    rw [hstep1, hstep2]
    show ([String.mk (pyStripL (r1.dropWhile isPySpace)),
        String.mk (pyStripL (r2.dropWhile isPySpace))].filter
        (fun s => s != "")) = _
    rw [pyStripL_dropWhile, pyStripL_dropWhile]

/-- C3 (witness for the amended theorem): a concrete mixed-case run with
a line break inside the second span. -/
theorem extractOrikSpans_amended_witness :
    ("[ORIK]".toList.map Char.toLower = orikMarkerL
      ∧ ('[' :: "orik]".toList).map Char.toLower = orikMarkerL
      ∧ '[' ∉ " hello there ".toList
      ∧ '[' ∉ " line one\nline two \n".toList)
    ∧ (extractOrikSpans (String.mk ("[ORIK]".toList ++ " hello there ".toList)) =
        ([String.mk (pyStripL " hello there ".toList)].filter (fun s => s != ""))
      ∧ extractOrikSpans (String.mk ("[ORIK]".toList ++ (" hello there ".toList
          ++ ('[' :: ("orik]".toList ++ " line one\nline two \n".toList))))) =
        ([String.mk (pyStripL " hello there ".toList),
          String.mk (pyStripL " line one\nline two \n".toList)].filter
          (fun s => s != ""))) :=
  ⟨⟨by decide, by decide, by decide, by decide⟩,
    extractOrikSpans_amended "[ORIK]".toList "orik]".toList
      " hello there ".toList " line one\nline two \n".toList
      (by decide) (by decide) (by decide) (by decide)⟩

/-- C4 (counterexample): with non-empty spans but a personality whose
first response template is the empty string, the substituted text is
empty, the `OrikResponse` constructor raises "response_text cannot be
empty", and `generate_response` degrades to the sentinel silent
response — kind contextual with confidence 0, not Tagged with
confidence 0.8 as the claim states for every personality
configuration. -/
theorem generateResponse_empty_template_not_tagged :
    generateResponse
        ⟨"base", 4/5, 3/10, 2/5, [""], []⟩
        ⟨"[Orik] x", ["x"], none, ⟨0, "", "[Orik] x", "p", 0, some ""⟩⟩
        0 0 7
      = Except.ok (createSilentResponse 7)
    ∧ (createSilentResponse 7).response_type = ResponseType.contextual
    ∧ (createSilentResponse 7).confidence ≠ 4/5 := by
  refine ⟨by decide, rfl, by norm_num [createSilentResponse]⟩

/-- C4 (amended): for every non-empty span sequence and every personality
— templates assumed to use braces only as `{content}` placeholders, the
domain on which the embedding models `str.format` — the policy returns
kind Tagged with confidence exactly 0.8 and the space-joined spans
substituted into the first template (or the fixed default template when
the template list is empty), regardless of the interruption and dig
probability settings, provided the substituted text is non-empty; an
empty substituted text instead degrades to the sentinel silent
response (see the counterexample). -/
theorem generateResponse_tagged_amended (p : OrikPersonality)
    (content : OrikContent) (r1 r2 : ℚ) (now : Nat)
    (htags : content.extracted_tags ≠ [])
    (_hgood : ∀ t ∈ p.response_templates.take 1, goodTemplate t = true)
    (htext : taggedText p content ≠ "") :
    generateResponse p content r1 r2 now =
      Except.ok ⟨taggedText p content, 4/5, ResponseType.tagged, now,
        content.get_combined_content⟩ := by
  have hhas : content.has_orik_tags = true := by
    simp [OrikContent.has_orik_tags]
    exact List.length_pos.mpr htags
  have h45 : ¬((4 : ℚ)/5 < 0 ∨ 1 < (4 : ℚ)/5) := by norm_num
  simp [generateResponse, hhas, generateTaggedResponse, mkOrikResponse,
    htext, h45]

/-- C4 (witness): the default personality on the single span
"serverless". -/
theorem generateResponse_tagged_amended_witness :
    ((["serverless"] : List String) ≠ []
      ∧ (∀ t ∈ OrikPersonality.create_default.response_templates.take 1,
          goodTemplate t = true)
      ∧ taggedText OrikPersonality.create_default
          ⟨"[Orik] serverless", ["serverless"], none,
            ⟨0, "", "[Orik] serverless", "p", 0, some ""⟩⟩ ≠ "")
    ∧ generateResponse OrikPersonality.create_default
        ⟨"[Orik] serverless", ["serverless"], none,
          ⟨0, "", "[Orik] serverless", "p", 0, some ""⟩⟩
        (1/2) (1/2) 5 =
      Except.ok ⟨taggedText OrikPersonality.create_default
          ⟨"[Orik] serverless", ["serverless"], none,
            ⟨0, "", "[Orik] serverless", "p", 0, some ""⟩⟩,
        4/5, ResponseType.tagged, 5,
        OrikContent.get_combined_content
          ⟨"[Orik] serverless", ["serverless"], none,
            ⟨0, "", "[Orik] serverless", "p", 0, some ""⟩⟩⟩ :=
  ⟨⟨by decide, by decide, by decide⟩,
    generateResponse_tagged_amended OrikPersonality.create_default
      ⟨"[Orik] serverless", ["serverless"], none,
        ⟨0, "", "[Orik] serverless", "p", 0, some ""⟩⟩
      (1/2) (1/2) 5 (by decide) (by decide) (by decide)⟩

/-- C5: with empty spans and `interruption_frequency = 0.0`, every
non-negative random draw fails the interruption check (`random()` is in
[0, 1)), so the policy always returns the sentinel silent response:
text "[SILENT]", confidence 0.0, kind contextual. -/
theorem generateResponse_silent_at_zero_frequency (p : OrikPersonality)
    (content : OrikContent) (r1 r2 : ℚ) (now : Nat)
    (hempty : content.extracted_tags = [])
    (hfreq : p.interruption_frequency = 0)
    (hr1 : 0 ≤ r1) :
    generateResponse p content r1 r2 now =
      Except.ok (createSilentResponse now) := by
  have hhas : content.has_orik_tags = false := by
    simp [OrikContent.has_orik_tags, hempty]
  have hni : p.should_interrupt r1 = false := by
    unfold OrikPersonality.should_interrupt
    rw [hfreq]
    simp [not_lt, hr1]
  simp [generateResponse, hhas, generateContextualOrDigResponse, hni]

/-- C5 (witness): frequency zero, draws 1/2 and 1/3. -/
theorem generateResponse_silent_at_zero_frequency_witness :
    ((([] : List String) = [])
      ∧ (⟨"base", 4/5, 0, 2/5, [], []⟩ : OrikPersonality).interruption_frequency
          = 0
      ∧ (0 : ℚ) ≤ 1/2)
    ∧ generateResponse ⟨"base", 4/5, 0, 2/5, [], []⟩
        ⟨"No tags", [], none, ⟨0, "", "No tags", "p", 0, some ""⟩⟩
        (1/2) (1/3) 4 =
      Except.ok (createSilentResponse 4) :=
  ⟨⟨by decide, by decide, by norm_num⟩,
    generateResponse_silent_at_zero_frequency ⟨"base", 4/5, 0, 2/5, [], []⟩
      ⟨"No tags", [], none, ⟨0, "", "No tags", "p", 0, some ""⟩⟩
      (1/2) (1/3) 4 (by decide) (by decide) (by norm_num)⟩

/-- C6 (counterexample): when the policy decides to respond and the
second draw is below the dig probability, the returned record has kind
RandomDig but its text is the hardcoded string in
`_generate_contextual_or_dig_response`, not a line obtained from the
external dig-line source (here yielding a different line), contrary to
the claim. -/
theorem generateResponse_dig_text_hardcoded :
    generateResponse OrikPersonality.create_default
        ⟨"No tags here", [], some "Title",
          ⟨0, "Title", "No tags here", "p", 0, some ""⟩⟩
        (1/10) (1/10) 3
      = Except.ok ⟨"I'm sure Aaron knows exactly what he's talking about... right?",
          3/5, ResponseType.random_dig, 3, "Title"⟩
    ∧ specDigText "You would not survive a code review, Aaron."
        ≠ "I'm sure Aaron knows exactly what he's talking about... right?" := by
  constructor
  · have hi : OrikPersonality.create_default.should_interrupt ((10 : ℚ)⁻¹) = true := by
      norm_num [OrikPersonality.should_interrupt, OrikPersonality.create_default]
    have hd : OrikPersonality.create_default.should_dig_at_aaron ((10 : ℚ)⁻¹) = true := by
      norm_num [OrikPersonality.should_dig_at_aaron, OrikPersonality.create_default]
    have h35 : ¬((3 : ℚ)/5 < 0 ∨ 1 < (3 : ℚ)/5) := by norm_num
    simp [generateResponse, OrikContent.has_orik_tags,
      generateContextualOrDigResponse, hi, hd, mkOrikResponse, h35]
  · decide

/-- C6 (amended): with empty spans, when the first draw passes the
interruption check the policy returns — without consulting the external
dig-line source — either the fixed hardcoded RandomDig line (second
draw below the dig probability) or the fixed hardcoded Contextual
filler, both with confidence 0.6 and the slide context as source. -/
theorem generateResponse_dig_amended (p : OrikPersonality)
    (content : OrikContent) (r1 r2 : ℚ) (now : Nat)
    (hempty : content.extracted_tags = [])
    (hint : r1 < p.interruption_frequency) :
    generateResponse p content r1 r2 now =
      Except.ok (if r2 < p.aaron_dig_probability then
          ⟨"I'm sure Aaron knows exactly what he's talking about... right?",
            3/5, ResponseType.random_dig, now, content.context.getD ""⟩
        else
          ⟨"Hmm, interesting approach, Aaron.", 3/5, ResponseType.contextual,
            now, content.context.getD ""⟩) := by
  have hhas : content.has_orik_tags = false := by
    simp [OrikContent.has_orik_tags, hempty]
  have hi : p.should_interrupt r1 = true := by
    simp [OrikPersonality.should_interrupt, hint]
  have h35 : ¬((3 : ℚ)/5 < 0 ∨ 1 < (3 : ℚ)/5) := by norm_num
  by_cases hr2 : r2 < p.aaron_dig_probability
  · have hd : p.should_dig_at_aaron r2 = true := by
      simp [OrikPersonality.should_dig_at_aaron, hr2]
    simp [generateResponse, hhas, generateContextualOrDigResponse, hi, hd,
      mkOrikResponse, h35, hr2]
  · have hd : p.should_dig_at_aaron r2 = false := by
      simp [OrikPersonality.should_dig_at_aaron, hr2]
    simp [generateResponse, hhas, generateContextualOrDigResponse, hi, hd,
      mkOrikResponse, h35, hr2]

/-- C6 (witness): default personality (interruption frequency 3/10, dig
probability 2/5) with draws 1/5 and 1/5, taking the dig branch. -/
theorem generateResponse_dig_amended_witness :
    ((([] : List String) = [])
      ∧ (1 : ℚ)/5 < OrikPersonality.create_default.interruption_frequency)
    ∧ generateResponse OrikPersonality.create_default
        ⟨"No tags", [], some "Intro", ⟨0, "Intro", "No tags", "p", 0, some ""⟩⟩
        (1/5) (1/5) 9 =
      Except.ok (if (1 : ℚ)/5 < OrikPersonality.create_default.aaron_dig_probability then
          ⟨"I'm sure Aaron knows exactly what he's talking about... right?",
            3/5, ResponseType.random_dig, 9,
            (some "Intro" : Option String).getD ""⟩
        else
          ⟨"Hmm, interesting approach, Aaron.", 3/5, ResponseType.contextual,
            9, (some "Intro" : Option String).getD ""⟩) :=
  ⟨⟨by decide, by norm_num [OrikPersonality.create_default]⟩,
    generateResponse_dig_amended OrikPersonality.create_default
      ⟨"No tags", [], some "Intro", ⟨0, "Intro", "No tags", "p", 0, some ""⟩⟩
      (1/5) (1/5) 9 (by decide)
      (by norm_num [OrikPersonality.create_default])⟩

/-- C7: connector startup fans the per-client connection attempts out
concurrently and joins the results; the join succeeds (startup
proceeds, with unavailable connectors only reflected later in
`SystemStatus`) exactly when at least one client connected, and raises
exactly when zero did; and an individual client counts as connected
exactly when one of its (up to) 3 retried attempts succeeds. -/
theorem connectMCPClients_total_failure_iff :
    (∀ clients : List (Nat → Bool),
      (connectMCPClients clients).isOk = true ↔
        ∃ c ∈ clients, connectSingleClient c = true)
    ∧ (∀ attempts : Nat → Bool,
        connectSingleClient attempts = true ↔ ∃ i < 3, attempts i = true) := by
  constructor
  · intro clients
    constructor
    · intro hok
      by_contra hno
      push_neg at hno
      have hnil : clients.filter (fun c => connectSingleClient c) = [] := by
        rw [List.filter_eq_nil_iff]
        intro a ha
        simp [hno a ha]
      unfold connectMCPClients at hok
      rw [hnil] at hok
      simp [Except.isOk, Except.toBool] at hok
    · rintro ⟨c, hc, hcc⟩
      have hmem : c ∈ clients.filter (fun c => connectSingleClient c) :=
        List.mem_filter.mpr ⟨hc, hcc⟩
      have hlen : (clients.filter (fun c => connectSingleClient c)).length ≠ 0 := by
        intro h0
        rw [List.length_eq_zero] at h0
        rw [h0] at hmem
        cases hmem
      unfold connectMCPClients
      rw [if_neg hlen]
      rfl
  · intro attempts
    constructor
    · intro h
      simp only [connectSingleClient, Bool.or_eq_true] at h
      rcases h with (h | h) | h
      · exact ⟨0, by omega, h⟩
      · exact ⟨1, by omega, h⟩
      · exact ⟨2, by omega, h⟩
    · rintro ⟨i, hi, hf⟩
      interval_cases i <;> simp [connectSingleClient, hf]

/-- Helper: the playback consumer fires exactly one started callback per
queued clip — it never stops draining, also after failures. -/
theorem processAudioQueue_started_count (clips : List QueuedClip) :
    ∀ s : PlaybackStatus,
      (((processAudioQueue clips s).2).filter AudioCallback.isStarted).length
        = clips.length := by
  induction clips with
  | nil => intro s; rfl
  | cons c rest ih =>
    intro s
    cases hc : c.ok <;>
      simp [processAudioQueue, playAudioSync, hc, AudioCallback.isStarted,
        List.filter_append, ih]

/-- C8 (counterexample): a queue holding exactly one failing clip: the
status moves to error and the error callback fires, but the dispatcher
does not return to idle — the final status is error, contradicting the
claim that it "then returns to Idle". -/
theorem processAudioQueue_error_not_idle :
    processAudioQueue [⟨0, false⟩] PlaybackStatus.idle =
      (PlaybackStatus.error,
        [AudioCallback.playback_started 0, AudioCallback.playback_error 0])
    ∧ PlaybackStatus.error ≠ PlaybackStatus.idle := by
  decide

/-- C8 (amended): when playback of a clip fails, the dispatcher's status
moves to error and the error callback is invoked, and the consumer
loop keeps draining the queue — the remaining clips are processed
exactly as a fresh run from the error status (first conjunct), and
every queued clip still gets a started callback (second conjunct); but
the status returns to idle only when a subsequent clip completes
successfully, not immediately after the failure (see the
counterexample). -/
theorem processAudioQueue_failure_keeps_draining (clip : QueuedClip)
    (rest : List QueuedClip) (s : PlaybackStatus) (hfail : clip.ok = false) :
    processAudioQueue (clip :: rest) s =
      ((processAudioQueue rest PlaybackStatus.error).1,
        AudioCallback.playback_started clip.id ::
          AudioCallback.playback_error clip.id ::
          (processAudioQueue rest PlaybackStatus.error).2)
    ∧ (((processAudioQueue (clip :: rest) s).2).filter
        AudioCallback.isStarted).length = rest.length + 1 := by
  constructor
  · simp [processAudioQueue, playAudioSync, hfail]
  · rw [processAudioQueue_started_count]
    simp

/-- C8 (witness): a failing clip followed by a succeeding one. -/
theorem processAudioQueue_failure_keeps_draining_witness :
    ((⟨0, false⟩ : QueuedClip).ok = false)
    ∧ (processAudioQueue (⟨0, false⟩ :: [⟨1, true⟩]) PlaybackStatus.idle =
        ((processAudioQueue [⟨1, true⟩] PlaybackStatus.error).1,
          AudioCallback.playback_started (⟨0, false⟩ : QueuedClip).id ::
            AudioCallback.playback_error (⟨0, false⟩ : QueuedClip).id ::
            (processAudioQueue [⟨1, true⟩] PlaybackStatus.error).2)
      ∧ (((processAudioQueue (⟨0, false⟩ :: [⟨1, true⟩])
            PlaybackStatus.idle).2).filter AudioCallback.isStarted).length
          = [(⟨1, true⟩ : QueuedClip)].length + 1) :=
  ⟨rfl, processAudioQueue_failure_keeps_draining ⟨0, false⟩ [⟨1, true⟩]
    PlaybackStatus.idle rfl⟩

/-- C9: with caching enabled and a fresh cache, requesting synthesis of
the same (text, voice-profile) pair twice makes exactly one call to the
synthesis collaborator: the first request calls Polly once and stores
the clip under the pair's fingerprint, and the second request makes
zero Polly calls and is served the cached clip. -/
theorem synthesizeSpeech_same_pair_single_call
    (polly : String → VoiceConfig → List Nat) (text : String)
    (cfg : VoiceConfig) (hne : pyStrip text ≠ "")
    (hdata : polly text cfg ≠ []) :
    (synthesizeSpeech polly emptyAudioCache text cfg true).2.2 = 1
    ∧ assocGet (getCacheKey text cfg)
        ((synthesizeSpeech polly emptyAudioCache text cfg true).2.1).files
        = some (polly text cfg)
    ∧ (synthesizeSpeech polly
        (synthesizeSpeech polly emptyAudioCache text cfg true).2.1
        text cfg true).2.2 = 0
    ∧ (synthesizeSpeech polly
        (synthesizeSpeech polly emptyAudioCache text cfg true).2.1
        text cfg true).1
      = SynthOutcome.success
          ⟨polly text cfg, AudioFormat.mp3, text.length * 100, cfg, some text⟩
          true := by
  refine ⟨?_, ?_, ?_, ?_⟩ <;>
    simp [synthesizeSpeech, hne, emptyAudioCache, getCachedAudio, assocGet,
      hdata, cacheAudio, assocSet, assocRemove, takePrefix100]

/-- C9 (witness): the pair ("Oh brilliant, Aaron.", default Orik voice)
against a collaborator returning the two-byte payload [1, 2]. -/
theorem synthesizeSpeech_same_pair_single_call_witness :
    (pyStrip "Oh brilliant, Aaron." ≠ "" ∧ ([1, 2] : List Nat) ≠ [])
    ∧ ((synthesizeSpeech (fun _ _ => [1, 2]) emptyAudioCache
          "Oh brilliant, Aaron."
          ⟨"Matthew", 11/10, "-10%", 1, "standard"⟩ true).2.2 = 1
      ∧ assocGet (getCacheKey "Oh brilliant, Aaron."
            ⟨"Matthew", 11/10, "-10%", 1, "standard"⟩)
          ((synthesizeSpeech (fun _ _ => [1, 2]) emptyAudioCache
            "Oh brilliant, Aaron."
            ⟨"Matthew", 11/10, "-10%", 1, "standard"⟩ true).2.1).files
          = some [1, 2]
      ∧ (synthesizeSpeech (fun _ _ => [1, 2])
          (synthesizeSpeech (fun _ _ => [1, 2]) emptyAudioCache
            "Oh brilliant, Aaron."
            ⟨"Matthew", 11/10, "-10%", 1, "standard"⟩ true).2.1
          "Oh brilliant, Aaron."
          ⟨"Matthew", 11/10, "-10%", 1, "standard"⟩ true).2.2 = 0
      ∧ (synthesizeSpeech (fun _ _ => [1, 2])
          (synthesizeSpeech (fun _ _ => [1, 2]) emptyAudioCache
            "Oh brilliant, Aaron."
            ⟨"Matthew", 11/10, "-10%", 1, "standard"⟩ true).2.1
          "Oh brilliant, Aaron."
          ⟨"Matthew", 11/10, "-10%", 1, "standard"⟩ true).1
        = SynthOutcome.success
            ⟨[1, 2], AudioFormat.mp3, "Oh brilliant, Aaron.".length * 100,
              ⟨"Matthew", 11/10, "-10%", 1, "standard"⟩,
              some "Oh brilliant, Aaron."⟩
            true) :=
  ⟨⟨by decide, by decide⟩,
    synthesizeSpeech_same_pair_single_call (fun _ _ => [1, 2])
      "Oh brilliant, Aaron." ⟨"Matthew", 11/10, "-10%", 1, "standard"⟩
      (by decide) (by decide)⟩

/-- C10: the cache fingerprint is computed only from the text and the
voice profile's voice_id, speed, pitch and engine — the volume field is
excluded — so two profiles differing only in volume map to the same
cache key (first conjunct), and a request with the second profile is
served the clip cached for the first: zero collaborator calls, the
first request's audio bytes (last conjunct; the rebuilt clip carries
the requesting profile). -/
theorem getCacheKey_ignores_volume (text : String) (c1 c2 : VoiceConfig)
    (hv : c1.voice_id = c2.voice_id) (hs : c1.speed = c2.speed)
    (hp : c1.pitch = c2.pitch) (he : c1.engine = c2.engine)
    (hne : pyStrip text ≠ "") (polly : String → VoiceConfig → List Nat)
    (hdata : polly text c1 ≠ []) :
    getCacheKey text c1 = getCacheKey text c2
    ∧ (synthesizeSpeech polly
        (synthesizeSpeech polly emptyAudioCache text c1 true).2.1
        text c2 true).2.2 = 0
    ∧ (synthesizeSpeech polly
        (synthesizeSpeech polly emptyAudioCache text c1 true).2.1
        text c2 true).1
      = SynthOutcome.success
          ⟨polly text c1, AudioFormat.mp3, text.length * 100, c2, some text⟩
          true := by
  have hkey : getCacheKey text c1 = getCacheKey text c2 := by
    simp [getCacheKey, hv, hs, hp, he]
  refine ⟨hkey, ?_, ?_⟩ <;>
    simp [synthesizeSpeech, hne, emptyAudioCache, getCachedAudio, assocGet,
      hdata, cacheAudio, assocSet, assocRemove, takePrefix100, hkey]

/-- C10 (witness): two default Orik profiles differing only in volume
(1 versus 1/2). -/
theorem getCacheKey_ignores_volume_witness :
    ((⟨"Matthew", 11/10, "-10%", 1, "standard"⟩ : VoiceConfig).voice_id
        = (⟨"Matthew", 11/10, "-10%", 1/2, "standard"⟩ : VoiceConfig).voice_id
      ∧ (⟨"Matthew", 11/10, "-10%", 1, "standard"⟩ : VoiceConfig).speed
        = (⟨"Matthew", 11/10, "-10%", 1/2, "standard"⟩ : VoiceConfig).speed
      ∧ (⟨"Matthew", 11/10, "-10%", 1, "standard"⟩ : VoiceConfig).pitch
        = (⟨"Matthew", 11/10, "-10%", 1/2, "standard"⟩ : VoiceConfig).pitch
      ∧ (⟨"Matthew", 11/10, "-10%", 1, "standard"⟩ : VoiceConfig).engine
        = (⟨"Matthew", 11/10, "-10%", 1/2, "standard"⟩ : VoiceConfig).engine
      ∧ pyStrip "Well, this is awkward." ≠ ""
      ∧ ([7] : List Nat) ≠ [])
    ∧ (getCacheKey "Well, this is awkward."
          ⟨"Matthew", 11/10, "-10%", 1, "standard"⟩
        = getCacheKey "Well, this is awkward."
          ⟨"Matthew", 11/10, "-10%", 1/2, "standard"⟩
      ∧ (synthesizeSpeech (fun _ _ => [7])
          (synthesizeSpeech (fun _ _ => [7]) emptyAudioCache
            "Well, this is awkward."
            ⟨"Matthew", 11/10, "-10%", 1, "standard"⟩ true).2.1
          "Well, this is awkward."
          ⟨"Matthew", 11/10, "-10%", 1/2, "standard"⟩ true).2.2 = 0
      ∧ (synthesizeSpeech (fun _ _ => [7])
          (synthesizeSpeech (fun _ _ => [7]) emptyAudioCache
            "Well, this is awkward."
            ⟨"Matthew", 11/10, "-10%", 1, "standard"⟩ true).2.1
          "Well, this is awkward."
          ⟨"Matthew", 11/10, "-10%", 1/2, "standard"⟩ true).1
        = SynthOutcome.success
            ⟨[7], AudioFormat.mp3, "Well, this is awkward.".length * 100,
              ⟨"Matthew", 11/10, "-10%", 1/2, "standard"⟩,
              some "Well, this is awkward."⟩
            true) :=
  ⟨⟨rfl, rfl, rfl, rfl, by decide, by decide⟩,
    getCacheKey_ignores_volume "Well, this is awkward."
      ⟨"Matthew", 11/10, "-10%", 1, "standard"⟩
      ⟨"Matthew", 11/10, "-10%", 1/2, "standard"⟩
      rfl rfl rfl rfl (by decide) (fun _ _ => [7]) (by decide)⟩
